import Mathlib

/-!
Verification of the grocy-recipe-assistant recipe-suggestion pipeline.

Shallow embedding of the Python modules `app/recipes.py`, `app/scoring.py`
and `app/cache.py`.  Python floats are modelled as exact rationals (`ℚ`),
Python dict fields as `Option`-typed record fields (`none` = key absent),
and effectful externals (HTTP, OpenAI, redis, `json.loads`) as explicit
outcome parameters.  Definition names follow the source where Lean allows.
-/

set_option maxRecDepth 4000

/-! ## Basic Python-style helpers -/

/-- Python `str.lower()` (ASCII), as a character-by-character map.
(`String.toLower` itself is avoided only because its `String.mapAux` does
not reduce inside the kernel; this is the same function.) -/
def pyLower (s : String) : String :=
  String.mk (s.toList.map Char.toLower)

/-- Contiguous-sublist test (Python substring containment on char lists). -/
def infixOfChars (needle : List Char) : List Char → Bool
  | [] => needle.isEmpty
  | c :: t => needle.isPrefixOf (c :: t) || infixOfChars needle t

/-- Python `any(k in s for k in kws)`: one of the keyword strings occurs as a
substring of `s`.  (Python `in` on strings is substring containment.) -/
def hasKw (s : String) (kws : List String) : Bool :=
  kws.any (fun k => infixOfChars k.toList s.toList)

/-- Python `needle in hay` for strings. -/
def pySubstr (needle hay : String) : Bool :=
  infixOfChars needle.toList hay.toList

/-- All characters are whitespace (Python regex `\s*$` tail check). -/
def wsOnly (cs : List Char) : Bool := cs.all Char.isWhitespace

/-! ## Data model (dict-shaped JSON payloads as records of optional fields) -/

/-- Recipe ids: numeric (external search API) or string (`"ai-recipe-..."`). -/
inductive RecipeId
  | num (n : Int)
  | str (s : String)
deriving DecidableEq, Repr

/-- The six taste dimensions (`TASTE_DIMENSIONS` in scoring.py). -/
inductive Dim
  | sweetness | saltiness | sourness | bitterness | savoriness | fattiness
deriving DecidableEq, Repr

def TASTE_DIMENSIONS : List Dim :=
  [.sweetness, .saltiness, .sourness, .bitterness, .savoriness, .fattiness]

/-- A taste profile dict; each dimension key may be absent (`none`). -/
structure TasteProfile where
  sweetness : Option ℚ := none
  saltiness : Option ℚ := none
  sourness : Option ℚ := none
  bitterness : Option ℚ := none
  savoriness : Option ℚ := none
  fattiness : Option ℚ := none
deriving DecidableEq, Repr

/-- `taste.get(dim)` lookup. -/
def TasteProfile.get (t : TasteProfile) : Dim → Option ℚ
  | .sweetness => t.sweetness
  | .saltiness => t.saltiness
  | .sourness => t.sourness
  | .bitterness => t.bitterness
  | .savoriness => t.savoriness
  | .fattiness => t.fattiness

/-- The neutral 50-by-six profile attached to AI-generated recipes. -/
def neutralTasteProfile : TasteProfile :=
  { sweetness := some 50, saltiness := some 50, sourness := some 50,
    bitterness := some 50, savoriness := some 50, fattiness := some 50 }

/-- An entry of `extendedIngredients`. -/
structure Ingredient where
  name : Option String := none
  amount : Option ℚ := none
  unit : Option String := none
deriving DecidableEq, Repr

/-- An entry of `usedIngredients` / `missedIngredients` as built by
`convert_classified_to_used_missed`. -/
structure IngredientInfo where
  name : String
  amount : ℚ
  unit : String
deriving DecidableEq, Repr

/-- An ingredient classification item. -/
structure Classified where
  ingredient : Option String := none
  category : Option String := none
  in_inventory : Option Bool := none
  confidence : Option ℚ := none
deriving DecidableEq, Repr

/-- The `fit_score` sub-dict built by `format_recipe_output`.
(`have` is a Lean keyword, hence `have_count`.) -/
structure FitScore where
  percentage : ℚ
  have_count : Nat
  need_to_buy : Nat
  total : Nat
deriving DecidableEq, Repr

/-- A recipe dict.  `none` models an absent key. -/
structure Recipe where
  id : Option RecipeId := none
  title : Option String := none
  image : Option String := none
  readyInMinutes : Option ℚ := none
  servings : Option ℚ := none
  sourceUrl : Option String := none
  summary : Option String := none
  instructions : Option String := none
  extendedIngredients : Option (List Ingredient) := none
  taste_profile : Option TasteProfile := none
  ai_generated : Option Bool := none
  ingredients_list : Option (List String) := none
  classified_ingredients : Option (List Classified) := none
  usedIngredientCount : Option Nat := none
  missedIngredientCount : Option Nat := none
  usedIngredients : Option (List IngredientInfo) := none
  missedIngredients : Option (List IngredientInfo) := none
  fit_score : Option FitScore := none
  score : Option ℚ := none
deriving DecidableEq, Repr

/-- User preferences dict.  `effort_tolerance` distinguishes an absent key
(outer `none`, Python `.get` then defaults to `"moderate"`) from an explicit
`None` value (`some none`). -/
structure UserPrefs where
  effort_tolerance : Option (Option String) := none
  taste_profile : Option TasteProfile := none
deriving DecidableEq, Repr

/-! ## scoring.py -/

/-- `map_minutes_to_effort(minutes)` (scoring.py lines 5-12). -/
def map_minutes_to_effort (minutes : Option ℚ) : String :=
  match minutes with
  | none => "moderate"
  | some m => if m ≤ 30 then "easy" else if m ≤ 60 then "moderate" else "hard"

def effort_levels : List String := ["easy", "moderate", "hard"]

/-- `calculate_effort_score(recipe_effort, user_effort_preference)`
(scoring.py lines 14-28).  A failed `.index` lookup (Python `ValueError`,
caught and passed) falls through to the 0.1 return. -/
def calculate_effort_score (recipe_effort : String)
    (user_effort_preference : Option String) : ℚ :=
  match user_effort_preference with
  | none => 1/2
  | some pref =>
    if recipe_effort = pref then 1
    else
      match effort_levels.findIdx? (· = recipe_effort),
            effort_levels.findIdx? (· = pref) with
      | some ri, some pi => if ((ri : ℤ) - (pi : ℤ)).natAbs = 1 then 3/5 else 1/10
      | _, _ => 1/10

/-- The `(total_difference, dimensions_counted)` accumulation loop of
`calculate_flavor_score` (scoring.py lines 34-42). -/
def flavorAcc (rt ut : TasteProfile) (dims : List Dim) : ℚ × ℕ :=
  dims.foldl
    (fun acc dim =>
      match rt.get dim, ut.get dim with
      | some rv, some pv => (acc.1 + |rv - pv|, acc.2 + 1)
      | _, _ => acc)
    (0, 0)

/-- `calculate_flavor_score(recipe_taste, user_taste_pref)`
(scoring.py lines 30-53).  A missing profile (Python `None`, or an empty —
hence falsy — dict) is `none` here. -/
def calculate_flavor_score (recipe_taste user_taste_pref : Option TasteProfile) : ℚ :=
  match recipe_taste, user_taste_pref with
  | some rt, some ut =>
    let acc := flavorAcc rt ut TASTE_DIMENSIONS
    if acc.2 = 0 then 1/2
    else
      let max_possible_difference : ℚ := (acc.2 : ℚ) * 100
      let normalized_difference := acc.1 / max_possible_difference
      1 - normalized_difference
  | _, _ => 1/2

/-- The inventory sub-score of `score_recipe` (scoring.py lines 56-61):
fraction of the recipe's distinct lowercased ingredient names present in
the available list (Python builds a `set`, modelled by `dedup`). -/
def inventory_score (recipe : Recipe) (available_ingredients : List String) : ℚ :=
  let recipe_ingredients :=
    ((recipe.extendedIngredients.getD []).map
      (fun i => pyLower (i.name.getD ""))).dedup
  if recipe_ingredients.isEmpty then 0
  else
    ((recipe_ingredients.countP (fun n => n ∈ available_ingredients) : ℚ)) /
      (recipe_ingredients.length : ℚ)

/-- `user_preferences.get("effort_tolerance", "moderate")` in `score_recipe`
(scoring.py line 66): the default applies only when the key is absent. -/
def getEffortTolerance (p : UserPrefs) : Option String :=
  match p.effort_tolerance with
  | none => some "moderate"
  | some v => v

/-- The effort sub-score of `score_recipe` (scoring.py lines 63-67). -/
def effortComponent (recipe : Recipe) (p : UserPrefs) : ℚ :=
  calculate_effort_score (map_minutes_to_effort recipe.readyInMinutes)
    (getEffortTolerance p)

/-- `score_recipe(recipe, available_ingredients, user_preferences)`
(scoring.py lines 55-76). -/
def score_recipe (recipe : Recipe) (available_ingredients : List String)
    (user_preferences : UserPrefs) : ℚ :=
  let inv := inventory_score recipe available_ingredients
  let effort := effortComponent recipe user_preferences
  let flavor := calculate_flavor_score recipe.taste_profile user_preferences.taste_profile
  inv * (4/10) + effort * (3/10) + flavor * (3/10)

/-- `score_and_sort_recipes(recipes, available_ingredients, user_preferences)`
(scoring.py lines 78-82).  Python's `sorted(..., reverse=True)` is a stable
descending sort, modelled by a stable merge sort with `le a b := score b ≤
score a`. -/
def score_and_sort_recipes (recipes : List Recipe) (available_ingredients : List String)
    (user_preferences : UserPrefs) : List Recipe :=
  let scored := recipes.map
    (fun r => { r with score := some (score_recipe r available_ingredients user_preferences) })
  scored.mergeSort (fun a b => decide ((b.score.getD 0) ≤ (a.score.getD 0)))

/-! ## recipes.py: clean_ingredient_name -/

/-- The units alternation of the size-suffix regex (recipes.py line 30):
`oz|OZ|g|ml|ML|pack|Pack|lb|LB` — literal alternatives, not a
case-insensitive class. -/
def sizeUnits : List String := ["oz", "OZ", "g", "ml", "ML", "pack", "Pack", "lb", "LB"]

/-- Does the pattern `\s+-\s+\d+(?:\s*(?:oz|OZ|g|ml|ML|pack|Pack|lb|LB))?\s*$`
match the whole of `cs` (i.e. the regex matches at this start position and
runs to the end of the string)?  The pattern's character classes make
backtracking irrelevant: whitespace, `-`, digits and unit starts are
pairwise disjoint. -/
def sizeSuffixMatchAt (cs : List Char) : Bool :=
  let ws1 := cs.takeWhile Char.isWhitespace
  if ws1.isEmpty then false
  else
    match cs.drop ws1.length with
    | [] => false
    | c :: rest =>
      if c ≠ '-' then false
      else
        let ws2 := rest.takeWhile Char.isWhitespace
        if ws2.isEmpty then false
        else
          let rest2 := rest.drop ws2.length
          let digits := rest2.takeWhile Char.isDigit
          if digits.isEmpty then false
          else
            let rest3 := rest2.drop digits.length
            wsOnly rest3 ||
              (let rest4 := rest3.dropWhile Char.isWhitespace
               sizeUnits.any (fun u =>
                 u.toList.isPrefixOf rest4 && wsOnly (rest4.drop u.toList.length)))

/-- `clean_ingredient_name(ingredient_name)` (recipes.py lines 12-35).
`re.sub` removes the leftmost match of the end-anchored pattern; an empty
input short-circuits (Python falsy check). -/
def clean_ingredient_name (ingredient_name : String) : String :=
  if ingredient_name = "" then ""
  else
    let cs := ingredient_name.toList
    match (List.range cs.length).find? (fun i => sizeSuffixMatchAt (cs.drop i)) with
    | some i => String.mk (cs.take i)
    | none => ingredient_name

/-! ## cache.py -/

/-- Outcome of `r.get(key)` on the underlying redis store: a raised
exception, a missing key, or a stored string. -/
inductive StoreGet
  | fault
  | missing
  | value (s : String)
deriving DecidableEq, Repr

/-- Outcome of `r.set(...)` on the underlying store. -/
inductive StoreSet
  | fault
  | ok
deriving DecidableEq, Repr

/-- A deserialized cache value: parsed JSON (abstracted) or, for a
non-parseable stored value, the raw string. -/
inductive CacheValue (J : Type)
  | json (j : J)
  | raw (s : String)
deriving DecidableEq, Repr

/-- `get_cache(key)` (cache.py lines 11-18).  `json.loads` is the `parse`
parameter; the `try`/`except` in the source wraps only `json.loads`, so a
fault from `r.get` itself propagates (`Except.error`).  An empty stored
string is falsy and yields `None`. -/
def get_cache {J : Type} (parse : String → Option J) (store : String → StoreGet)
    (key : String) : Except Unit (Option (CacheValue J)) :=
  match store key with
  | .fault => .error ()
  | .missing => .ok none
  | .value v =>
    if v = "" then .ok none
    else
      match parse v with
      | some j => .ok (some (.json j))
      | none => .ok (some (.raw v))

/-- `set_cache(key, value, ex)` (cache.py lines 20-21): a single unguarded
`r.set`, so a store fault propagates. -/
def set_cache (storeOutcome : StoreSet) : Except Unit Unit :=
  match storeOutcome with
  | .fault => .error ()
  | .ok => .ok ()

/-! ## recipes.py: _create_culinary_ingredient_combinations -/

def protein_sources : List String :=
  ["chicken", "beef", "pork", "tuna", "fish", "tofu", "beans", "lentils", "eggs"]

def starches : List String :=
  ["pasta", "rice", "potato", "bread", "noodle", "macaroni", "spaghetti"]

def vegetables : List String :=
  ["tomato", "onion", "carrot", "broccoli", "spinach", "lettuce", "pepper", "green beans"]

def condiments : List String :=
  ["sauce", "bbq", "gravy", "oil", "vinegar", "mayonnaise", "mustard"]

/-- Frozenset equality of two combination lists (dedup key in the source is
`frozenset(combo)`). -/
def sameSet (a b : List String) : Bool :=
  a.all (fun x => b.contains x) && b.all (fun x => a.contains x)

/-- The source's duplicate-removal loop (recipes.py lines 530-537): keep the
first combination for each member set. -/
def dedupCombos (seen : List (List String)) : List (List String) → List (List String)
  | [] => []
  | c :: cs =>
    if seen.any (fun s => sameSet s c) then dedupCombos seen cs
    else c :: dedupCombos (seen ++ [c]) cs

/-- Step 1 of the heuristic (recipes.py lines 411-432): the classic pasta
combination, as the (possibly empty) list of combinations it contributes. -/
def pastaCombos (ingredients : List String) : List (List String) :=
  let pasta_items := ingredients.filter
    (fun ing => hasKw (pyLower ing) ["pasta", "spaghetti", "macaroni", "noodle"])
  if pasta_items.isEmpty then []
  else
    let c0 := pasta_items.take 1
    let tomato_items := ingredients.filter
      (fun ing => hasKw (pyLower ing) ["tomato"] || hasKw (pyLower ing) ["sauce"])
    let c1 := c0 ++ tomato_items.take 1
    let cheese_items := ingredients.filter (fun ing => hasKw (pyLower ing) ["cheese"])
    let c2 := c1 ++ cheese_items.take 1
    let protein_items := ingredients.filter (fun ing => hasKw (pyLower ing) protein_sources)
    let c3 := if ¬ protein_items.isEmpty ∧ c2.length < 4 then c2 ++ protein_items.take 1 else c2
    if c3.length ≥ 2 then [c3] else []

/-- Step 2 (recipes.py lines 434-456): protein + starch + vegetable
(+ condiment) combinations, one per considered protein. -/
def proteinMealCombos (ingredients : List String) : List (List String) :=
  let protein_items := ingredients.filter (fun ing => hasKw (pyLower ing) protein_sources)
  ((protein_items.take 2).map (fun protein =>
    let m0 := [protein]
    let starch_items := ingredients.filter
      (fun ing => hasKw (pyLower ing) starches && !(m0.contains ing))
    let m1 := m0 ++ starch_items.take 1
    let veg_items := ingredients.filter
      (fun ing => hasKw (pyLower ing) vegetables && !(m1.contains ing))
    let m2 := m1 ++ veg_items.take 1
    let m3 :=
      if m2.length < 4 then
        let sauce_items := ingredients.filter
          (fun ing => hasKw (pyLower ing) condiments && !(m2.contains ing))
        m2 ++ sauce_items.take 1
      else m2
    if m3.length ≥ 2 then [m3] else [])).flatten

/-- Step 3 (recipes.py lines 458-474): the soup-based combination. -/
def soupCombos (ingredients : List String) : List (List String) :=
  let soup_items := ingredients.filter (fun ing => hasKw (pyLower ing) ["soup"])
  if soup_items.isEmpty then []
  else
    let c0 := soup_items.take 1
    let soup_additions := ingredients.filter
      (fun ing =>
        hasKw (pyLower ing) ["beans", "vegetable", "carrot", "onion", "chicken", "beef"] &&
        !(c0.contains ing))
    let c1 := if ¬ soup_additions.isEmpty then c0 ++ soup_additions.take 2 else c0
    if c1.length ≥ 2 then [c1] else []

/-- Step 4 (recipes.py lines 476-502): pre-made meal-kit combinations. -/
def mealKitCombos (ingredients : List String) : List (List String) :=
  let meal_kits := ingredients.filter
    (fun ing => hasKw (pyLower ing) ["kit", "mix", "helper", "dinner", "meal"])
  (meal_kits.map (fun kit =>
    let kl := pyLower kit
    let complements :=
      if pySubstr "taco" kl then
        ingredients.filter (fun ing => hasKw (pyLower ing) ["cheese", "salsa", "tomato", "lettuce"])
      else if pySubstr "pasta" kl || pySubstr "spaghetti" kl then
        ingredients.filter (fun ing => hasKw (pyLower ing) ["cheese", "tomato", "beef", "sauce"])
      else if pySubstr "rice" kl then
        ingredients.filter (fun ing => hasKw (pyLower ing) ["vegetable", "chicken", "beef", "soy"])
      else if pySubstr "potato" kl then
        ingredients.filter (fun ing => hasKw (pyLower ing) ["cheese", "cream", "butter", "bacon"])
      else []
    let c : List String := [kit] ++ (if ¬ complements.isEmpty then complements.take 2 else [])
    if c.length ≥ 2 then [c] else [])).flatten

/-- Step 5 (recipes.py lines 504-528): catch-all combinations for ingredients
not yet covered by `combos` (the combinations built so far). -/
def missingCombos (ingredients : List String) (combos : List (List String)) :
    List (List String) :=
  let all_included := combos.flatten
  let missing_ingredients := ingredients.filter (fun ing => !(all_included.contains ing))
  (missing_ingredients.map (fun ing =>
    let il := pyLower ing
    let companions :=
      if hasKw il protein_sources then
        ingredients.filter (fun i => hasKw (pyLower i) (starches ++ vegetables))
      else if hasKw il starches then
        ingredients.filter (fun i => hasKw (pyLower i) (protein_sources ++ condiments))
      else if hasKw il vegetables then
        ingredients.filter (fun i => i ≠ ing)
      else
        ingredients.filter (fun i => i ≠ ing)
    if ¬ companions.isEmpty then
      let extra := [ing] ++ companions.take 2
      if extra.length ≥ 2 then [extra] else []
    else [])).flatten

/-- The full combination list built by
`_create_culinary_ingredient_combinations` before duplicate removal and
truncation (recipes.py lines 379-528).  Each loop that appends combinations
is rendered as the list of combinations it contributes, concatenated in
program order.  The per-ingredient `ing_types` lookup table built at lines
385-409 is never read afterwards in the source and is omitted here. -/
def culinaryCombosRaw (ingredients : List String) : List (List String) :=
  let combos0 : List (List String) :=
    if ingredients.length ≤ 6 then [ingredients] else []
  let combos1 := combos0 ++ pastaCombos ingredients
  let combos2 := combos1 ++ proteinMealCombos ingredients
  let combos3 := combos2 ++ soupCombos ingredients
  let combos4 := combos3 ++ mealKitCombos ingredients
  combos4 ++ missingCombos ingredients combos4

/-- `_create_culinary_ingredient_combinations(ingredients)` (recipes.py lines
366-540): build the combinations, remove duplicates, cap the count at
`min(8, max(4, len(ingredients) // 2))`. -/
def _create_culinary_ingredient_combinations (ingredients : List String) :
    List (List String) :=
  let max_combinations := min 8 (max 4 (ingredients.length / 2))
  (dedupCombos [] (culinaryCombosRaw ingredients)).take max_combinations

/-! ## recipes.py: group fetch and the multi-group search loop -/

/-- Outcome of the `httpx.get` call against the external recipe-search API:
a raised exception, or a response with a status code and parsed results. -/
inductive HttpOutcome
  | raised
  | response (status : Nat) (results : List Recipe)
deriving DecidableEq, Repr

/-- `_fetch_recipes_for_ingredient_group(...)` (recipes.py lines 145-248),
as a function of its external outcomes.  The cache lookup (line 169) happens
before — and outside — the `try` block, so a cache fault propagates
(`Except.error`); everything inside the `try` (the HTTP call, response
handling and the `set_cache` write) is caught by `except Exception: return
[]`.  An empty cached list is falsy and does not short-circuit. -/
def _fetch_recipes_for_ingredient_group
    (cacheOutcome : Except Unit (Option (List Recipe)))
    (http : HttpOutcome) (setOutcome : StoreSet) : Except Unit (List Recipe) :=
  match cacheOutcome with
  | .error _ => .error ()
  | .ok cached =>
    let hit : Bool := match cached with
      | some c => !c.isEmpty
      | none => false
    if hit then .ok (cached.getD [])
    else
      match http with
      | .raised => .ok []
      | .response status results =>
        if status ≠ 200 then .ok []
        else if ¬ results.isEmpty then
          match set_cache setOutcome with
          | .error _ => .ok []
          | .ok _ => .ok results
        else .ok results

/-- Loop state of the multi-group search in `fetch_recipes_from_spoonacular`
(recipes.py lines 104-133): accumulated unique results, seen ids, and
whether the early `break` fired. -/
structure FetchState where
  all_results : List Recipe
  results_ids : List (Option RecipeId)
  broke : Bool
deriving DecidableEq, Repr

/-- Inner per-recipe dedup (recipes.py lines 126-129): append a recipe
unless its id was already seen. -/
def addUniqueResults (st : FetchState) (group_results : List Recipe) : FetchState :=
  group_results.foldl
    (fun s r =>
      if s.results_ids.contains r.id then s
      else { s with all_results := s.all_results ++ [r], results_ids := s.results_ids ++ [r.id] })
    st

/-- One iteration of the group loop (recipes.py lines 115-133), where
`outcome` is what `_fetch_recipes_for_ingredient_group` returned for this
group; after merging, the loop breaks once `number` results are collected. -/
def fetchGroupStep (number : Nat) (st : FetchState) (outcome : List Recipe) : FetchState :=
  if st.broke then st
  else
    let st' := addUniqueResults st outcome
    if st'.all_results.length ≥ number then { st' with broke := true } else st'

/-- The multi-group branch of `fetch_recipes_from_spoonacular` (recipes.py
lines 100-136), as a function of the per-group fetch outcomes (in group
order): run the loop and return the first `number` unique results. -/
def fetch_recipes_from_spoonacular_loop (groupOutcomes : List (List Recipe))
    (number : Nat) : List Recipe :=
  (groupOutcomes.foldl (fetchGroupStep number) ⟨[], [], false⟩).all_results.take number

/-! ## recipes.py: convert_classified_to_used_missed and fit percentage -/

/-- `convert_classified_to_used_missed(recipe, available_ingredients)`
(recipes.py lines 819-874).  The `ingredient_details` dict maps the
lowercased name of each extended ingredient to its amount/unit; a later
duplicate name overwrites an earlier one, hence the reversed search. -/
def convert_classified_to_used_missed (recipe : Recipe)
    (available_ingredients : List String) : Recipe :=
  let _ := available_ingredients
  let classified := recipe.classified_ingredients.getD []
  if classified.isEmpty then recipe
  else
    let extended_ingredients := recipe.extendedIngredients.getD []
    let detailsFor := fun (name : String) =>
      match extended_ingredients.reverse.find?
          (fun i => pyLower (i.name.getD "") = name) with
      | some i => (i.amount.getD 0, i.unit.getD "")
      | none => ((0 : ℚ), "")
    let pair := classified.foldl
      (fun (acc : List IngredientInfo × List IngredientInfo) c =>
        let name := pyLower (c.ingredient.getD "")
        let d := detailsFor name
        let info : IngredientInfo := ⟨name, d.1, d.2⟩
        if c.in_inventory.getD false then (acc.1 ++ [info], acc.2)
        else (acc.1, acc.2 ++ [info]))
      ([], [])
    { recipe with
      usedIngredientCount := some pair.1.length,
      missedIngredientCount := some pair.2.length,
      usedIngredients := some pair.1,
      missedIngredients := some pair.2 }

/-- The ingredient-fit percentage as computed by `format_recipe_output`
(recipes.py lines 624-631): `used/(used+missed)*100`, or 0 when the counts
sum to 0. -/
def ingredientFitPercentage (recipe : Recipe) : ℚ :=
  let total := recipe.usedIngredientCount.getD 0 + recipe.missedIngredientCount.getD 0
  if total > 0 then ((recipe.usedIngredientCount.getD 0 : ℚ) / (total : ℚ)) * 100
  else 0

/-! ## recipes.py: generate_ai_recipe_suggestion -/

/-- Opening and closing braces, used when scanning for the brace-delimited
JSON block. -/
def lbrace : Char := Char.ofNat 123

def rbrace : Char := Char.ofNat 125

/-- `re.search(r'\x7b[\s\S]*\x7d', text)` (recipes.py line 1347): the block
from the first opening brace to the last closing brace, when the latter
comes after the former. -/
def braceBlock (s : String) : Option String :=
  let cs := s.toList
  match cs.findIdx? (· = lbrace) with
  | none => none
  | some i =>
    match cs.reverse.findIdx? (· = rbrace) with
    | none => none
    | some rj =>
      let j := cs.length - 1 - rj
      if i < j then some (String.mk ((cs.drop i).take (j - i + 1))) else none

/-- Does the field-extraction regex `"<field>"\s*:\s*"([^"]+)"` match at the
head of `cs`?  Returns the captured group. -/
def jsonFieldMatchAt (field : List Char) (cs : List Char) : Option String :=
  let lit := '"' :: field ++ ['"']
  if lit.isPrefixOf cs then
    let rest := (cs.drop lit.length).dropWhile Char.isWhitespace
    match rest with
    | ':' :: rest2 =>
      let rest3 := rest2.dropWhile Char.isWhitespace
      match rest3 with
      | '"' :: rest4 =>
        let content := rest4.takeWhile (· ≠ '"')
        if ¬ content.isEmpty ∧ (rest4.drop content.length).head? = some '"' then
          some (String.mk content)
        else none
      | _ => none
    | _ => none
  else none

/-- Leftmost match of the field-extraction regex over `cs`. -/
def jsonFieldSearch (field : String) : List Char → Option String
  | [] => none
  | c :: cs =>
    match jsonFieldMatchAt field.toList (c :: cs) with
    | some r => some r
    | none => jsonFieldSearch field cs

/-- The required-field validation of the primary parsing path
(recipes.py lines 1363-1364). -/
def requiredFieldsPresent (r : Recipe) : Bool :=
  r.id.isSome && r.title.isSome && r.readyInMinutes.isSome && r.servings.isSome &&
    r.extendedIngredients.isSome && r.instructions.isSome

/-- The primary parsing path's post-processing (recipes.py lines 1365-1390):
flag as AI-generated, derive `ingredients_list`, attach the neutral taste
profile, and set the used/missed counts. -/
def acceptParsedAiRecipe (r : Recipe) : Recipe :=
  { r with
    ai_generated := some true,
    ingredients_list :=
      some ((r.extendedIngredients.getD []).map (fun i => pyLower (i.name.getD ""))),
    taste_profile := some neutralTasteProfile,
    usedIngredientCount := some (r.extendedIngredients.getD []).length,
    missedIngredientCount := some 0 }

/-- The manually constructed last-resort recipe (recipes.py lines 1400-1426).
Note that this path sets the neutral taste profile but never sets
`usedIngredientCount` / `missedIngredientCount`. -/
def manualAiRecipe (title instructions : String) (available_ingredients : List String)
    (unique_id : String) : Recipe :=
  let base : Recipe :=
    { id := some (.str ("ai-recipe-" ++ unique_id)),
      title := some title,
      readyInMinutes := some 30,
      servings := some 4,
      instructions := some instructions,
      extendedIngredients :=
        some ((available_ingredients.take 5).map
          (fun ingredient => { name := some ingredient, amount := some 1, unit := some "serving" })),
      ai_generated := some true,
      summary :=
        some ("Recipe made with " ++ String.intercalate ", " (available_ingredients.take 3)),
      taste_profile := some neutralTasteProfile }
  { base with
    ingredients_list :=
      some ((base.extendedIngredients.getD []).map (fun i => pyLower (i.name.getD ""))) }

/-- `generate_ai_recipe_suggestion(...)` (recipes.py lines 1243-1437), as a
function of its external outcomes: AI credential availability, the cached
value, the raw AI response text, and `json.loads` applied to the
comma-repaired brace block (`parseRepaired` folds the three `re.sub` comma
fixes of lines 1353-1357 together with `json.loads`).  Returns `none` on
every unrecoverable path. -/
def generate_ai_recipe_suggestion (aiAvailable : Bool) (cached : Option Recipe)
    (result_text : String) (parseRepaired : String → Except Unit Recipe)
    (available_ingredients : List String) (unique_id : String) : Option Recipe :=
  if ¬ aiAvailable then none
  else
    match cached with
    | some c => some c
    | none =>
      match braceBlock result_text with
      | none => none
      | some json_text =>
        match parseRepaired json_text with
        | .ok recipe =>
          if requiredFieldsPresent recipe then some (acceptParsedAiRecipe recipe)
          else none
        | .error _ =>
          if pySubstr "title" json_text && pySubstr "instructions" json_text then
            match jsonFieldSearch "title" json_text.toList,
                  jsonFieldSearch "instructions" json_text.toList with
            | some t, some ins =>
              some (manualAiRecipe t ins available_ingredients unique_id)
            | _, _ => none
          else none

/-! ## recipes.py: post-scoring AI top-up (suggest_recipes_with_classification) -/

/-- Step 8 of `suggest_recipes_with_classification` (recipes.py lines
784-816), as a function of the scored batch and the external outcomes: the
AI generation result and the classification the AI recipe would receive.
`best_recipe_fit` is read from `scored_recipes[0].get("fit_score",
\x7b\x7d).get("percentage", 0)`. -/
def post_scoring_ai_topup (scored_recipes : List Recipe)
    (available_ingredients : List String) (user_preferences : UserPrefs)
    (aiOutcome : Option Recipe) (classifyOutcome : List Classified) : List Recipe :=
  if ¬ scored_recipes.isEmpty ∧
      ¬ scored_recipes.any (fun r => r.ai_generated.getD false) then
    let best_recipe_fit : ℚ :=
      match (scored_recipes.head?).bind (fun top => top.fit_score) with
      | some fs => fs.percentage
      | none => 0
    if best_recipe_fit ≤ 10 then
      match aiOutcome with
      | none => scored_recipes
      | some ai_recipe =>
        let ai1 := { ai_recipe with
          ingredients_list :=
            some ((ai_recipe.extendedIngredients.getD []).map
              (fun (i : Ingredient) => pyLower (i.name.getD ""))) }
        let ai2 := { ai1 with classified_ingredients := some classifyOutcome }
        let ai3 := convert_classified_to_used_missed ai2 available_ingredients
        match score_and_sort_recipes [ai3] available_ingredients user_preferences with
        | ai4 :: _ => ai4 :: scored_recipes
        | [] => scored_recipes
    else scored_recipes
  else scored_recipes

/-! ## Claim-side specification definitions (for refinement comparisons) -/

/-- The adjacent effort-bucket pairs, in the claim's sense: buckets whose
positions in easy/moderate/hard differ by exactly one. -/
def adjacentBuckets : List (String × String) :=
  [("easy", "moderate"), ("moderate", "easy"), ("moderate", "hard"), ("hard", "moderate")]

/-- Modelled from the claim wording of C4 (spec 4.8): map `readyInMinutes`
to a bucket (at most 30 easy, at most 60 moderate, otherwise hard, missing
time defaulting to moderate) and compare to the user's effort tolerance:
exact bucket match 1.0, adjacent bucket 0.6, non-adjacent 0.1, and 0.5 when
the user expressed no preference.  To be compared with the source-side
`effortComponent`. -/
def effortSpecScore (minutes : Option ℚ) (pref : Option String) : ℚ :=
  match pref with
  | none => 1/2
  | some t =>
    let bucket :=
      match minutes with
      | none => "moderate"
      | some m => if m ≤ 30 then "easy" else if m ≤ 60 then "moderate" else "hard"
    if bucket = t then 1
    else if (bucket, t) ∈ adjacentBuckets then 3/5 else 1/10

/-- Every present taste dimension lies in [0, 100]. -/
def tasteInRange (t : TasteProfile) : Bool :=
  TASTE_DIMENSIONS.all (fun d =>
    match t.get d with
    | none => true
    | some v => decide (0 ≤ v) && decide (v ≤ 100))

/-- `tasteInRange` lifted to a possibly-absent profile. -/
def optTasteInRange : Option TasteProfile → Bool
  | none => true
  | some t => tasteInRange t

/-! ## Concrete fixtures used by witnesses and counterexamples -/

/-- A well-formed recipe as the primary AI parsing path would produce it. -/
def c5WitnessParsed : Recipe :=
  { id := some (.num 1), title := some "Pan Fry", readyInMinutes := some 20,
    servings := some 2, extendedIngredients := some [{ name := some "A" }],
    instructions := some "mix" }

/-- A top-scoring external recipe whose every ingredient is in inventory
(true ingredient-fit 100%), as it reaches step 8 of the pipeline: the
`fit_score` key has not been set yet (only `format_recipe_output`, applied
downstream by the API layer, creates it). -/
def c1TopRecipe : Recipe :=
  { id := some (.num 7), title := some "Top", usedIngredientCount := some 5,
    missedIngredientCount := some 0 }

/-- An AI-generated alternative recipe as `generate_ai_recipe_suggestion`
would return it. -/
def c1AiRecipe : Recipe :=
  { id := some (.str "ai-recipe-1-1"), title := some "AI alternative",
    ai_generated := some true,
    extendedIngredients := some [{ name := some "x", amount := some 1, unit := some "cup" }],
    usedIngredientCount := some 1, missedIngredientCount := some 0,
    taste_profile := some neutralTasteProfile }

/-! ## C8: the ingredient-name normalizer -/

/-- C8 counterexample: the claim asserts the size-suffix unit is matched
case-insensitively, but the regex lists only the literal alternatives
`oz|OZ|g|ml|ML|pack|Pack|lb|LB`, so the mixed-case unit in
"Beef Stew - 20Oz" is not stripped. -/
theorem C8_counterexample :
    clean_ingredient_name ("Beef Stew - 20Oz") ≠ "Beef Stew" := by decide

/-- C8 (amended): the normalizer strips a single trailing size suffix
" - number optional-unit" where the unit is one of the literal alternatives
oz, OZ, g, ml, ML, pack, Pack, lb, LB (not arbitrary casings), preserving
internal hyphens; the four claimed examples hold, an all-caps OZ is
stripped, and the mixed-case Oz is left unchanged. -/
theorem C8_amended :
    clean_ingredient_name ("Beef Stew - 20oz") = "Beef Stew" ∧
    clean_ingredient_name ("Ready-to-eat Soup - 12oz") = "Ready-to-eat Soup" ∧
    clean_ingredient_name ("") = "" ∧
    clean_ingredient_name (" - 10oz") = "" ∧
    clean_ingredient_name ("Beef Stew - 20OZ") = "Beef Stew" ∧
    clean_ingredient_name ("Beef Stew - 20Oz") = "Beef Stew - 20Oz" := by decide

/-! ## C3: cache-layer fault propagation -/

/-- C3 is wrong about the code: the `try`/`except` in `get_cache` wraps only
`json.loads`, not the `r.get` store call, and `set_cache` has no handler at
all, so a store fault propagates to the caller from both functions instead
of degrading to a cache miss. -/
theorem C3_bug :
    get_cache (J := Unit) (fun _ => none) (fun _ => .fault) ("anykey") = .error () ∧
    set_cache .fault = .error () := ⟨rfl, rfl⟩

/-! ## C2: used/missed counts after conversion -/

/-- Folding the used/missed partition step adds exactly one ingredient info
per classified item. -/
theorem foldl_partition_length {α β : Type}
    (step : (List α × List α) → β → (List α × List α))
    (hstep : ∀ acc b, ((step acc b).1.length + (step acc b).2.length) =
      acc.1.length + acc.2.length + 1) :
    ∀ (l : List β) (acc : List α × List α),
      ((l.foldl step acc).1.length + (l.foldl step acc).2.length) =
        acc.1.length + acc.2.length + l.length := by
  intro l
  induction l with
  | nil => intro acc; simp
  | cons b t ih =>
    intro acc
    simp only [List.foldl_cons, List.length_cons]
    rw [ih (step acc b), hstep acc b]
    omega

/-- C2 counterexample: `convert_classified_to_used_missed` sets
`usedIngredientCount + missedIngredientCount` to the length of the
classified list, not of `extendedIngredients`; with one classified item and
two extended ingredients the claimed invariant fails. -/
theorem C2_counterexample :
    ¬ ((convert_classified_to_used_missed
          { classified_ingredients := some [{ ingredient := some "a", in_inventory := some false }],
            extendedIngredients := some [{ name := some "a" }, { name := some "b" }] }
          []).usedIngredientCount.getD 0 +
       (convert_classified_to_used_missed
          { classified_ingredients := some [{ ingredient := some "a", in_inventory := some false }],
            extendedIngredients := some [{ name := some "a" }, { name := some "b" }] }
          []).missedIngredientCount.getD 0 =
       ([{ name := some "a" }, { name := some "b" }] : List Ingredient).length) := by
  decide

/-- C2 (amended): for every recipe with a non-empty classified_ingredients
list, after conversion usedIngredientCount + missedIngredientCount equals
the length of the classified_ingredients list (which equals
len(extendedIngredients) only when the classification has exactly one entry
per extended ingredient). -/
theorem C2_amended (r : Recipe) (avail : List String) (cl : List Classified)
    (h1 : r.classified_ingredients = some cl) (h2 : cl ≠ []) :
    (convert_classified_to_used_missed r avail).usedIngredientCount.getD 0 +
      (convert_classified_to_used_missed r avail).missedIngredientCount.getD 0 =
      cl.length := by
  unfold convert_classified_to_used_missed
  have hne : (r.classified_ingredients.getD []).isEmpty = false := by
    rw [h1]; cases cl with
    | nil => exact absurd rfl h2
    | cons a t => rfl
  simp only [hne, Bool.false_eq_true, if_false, Option.getD_some]
  rw [h1]
  simp only [Option.getD_some]
  refine Eq.trans (foldl_partition_length _ ?_ cl ([], [])) (by simp)
  intro acc b
  by_cases hb : b.in_inventory.getD false <;> simp [hb] <;> omega

/-- C5 counterexample: through the manual last-resort parsing path the
generator succeeds yet returns a recipe with no usedIngredientCount and no
missedIngredientCount keys at all (and in particular not 0 /
len(extendedIngredients)).  The response text's brace block carries a
trailing comma before the closing brace, on a single line: the three
comma-repair substitutions are identity on it (no brace pair to separate
and no newline for the quote fixes), `json.loads` rejects the trailing
comma — hence `parseRepaired` returns an error here, matching the source —
and the title/instructions fields are still substring-detectable and
regex-extractable, so the real code reaches the manual construction. -/
theorem C5_counterexample :
    ((generate_ai_recipe_suggestion true none
        ("xx \x7b \"title\": \"T\", \"instructions\": \"Do it\", \x7d yy")
        (fun _ => .error ()) ["a", "b"] ("uid")).map
      (fun r => (r.usedIngredientCount, r.missedIngredientCount,
        r.taste_profile == some neutralTasteProfile))) = some (none, none, true) := by
  decide

/-- C5 (amended): every recipe returned by generate_ai_recipe_suggestion on
a cache miss carries the neutral six-by-50 taste profile, and either (on the
primary JSON parsing path) has missedIngredientCount 0 and
usedIngredientCount equal to the length of its extendedIngredients, or (on
the manual fallback path) has neither count key set. -/
theorem C5_amended (aiAvailable : Bool) (result_text : String)
    (parseRepaired : String → Except Unit Recipe) (avail : List String)
    (uid : String) (r : Recipe)
    (h : generate_ai_recipe_suggestion aiAvailable none result_text parseRepaired
        avail uid = some r) :
    r.taste_profile = some neutralTasteProfile ∧
    ((r.usedIngredientCount = some (r.extendedIngredients.getD []).length ∧
      r.missedIngredientCount = some 0) ∨
     (r.usedIngredientCount = none ∧ r.missedIngredientCount = none)) := by
  unfold generate_ai_recipe_suggestion at h
  by_cases ha : aiAvailable
  · simp only [ha, not_true_eq_false, if_false] at h
    cases hb : braceBlock result_text with
    | none => simp only [hb] at h; exact Option.noConfusion h
    | some json_text =>
      simp only [hb] at h
      cases hp : parseRepaired json_text with
      | ok rec =>
        simp only [hp] at h
        by_cases hreq : requiredFieldsPresent rec
        · rw [if_pos hreq] at h
          cases h
          exact ⟨rfl, Or.inl ⟨rfl, rfl⟩⟩
        · rw [if_neg hreq] at h; exact absurd h (by simp)
      | error e =>
        simp only [hp] at h
        by_cases hsub : (pySubstr "title" json_text && pySubstr "instructions" json_text) = true
        · rw [if_pos hsub] at h
          cases ht : jsonFieldSearch "title" json_text.toList with
          | none => rw [ht] at h; exact absurd h (by simp)
          | some t =>
            cases hi : jsonFieldSearch "instructions" json_text.toList with
            | none => rw [ht, hi] at h; exact absurd h (by simp)
            | some ins =>
              rw [ht, hi] at h
              cases h
              exact ⟨rfl, Or.inr ⟨rfl, rfl⟩⟩
        · rw [if_neg hsub] at h; exact absurd h (by simp)
  · simp only [ha, not_false_eq_true, if_true] at h
    exact absurd h (by simp)

/-- C5 witness: the amended statement applied through the primary parsing
path at a concrete response. -/
theorem C5_amended_witness :
    (acceptParsedAiRecipe c5WitnessParsed).taste_profile = some neutralTasteProfile ∧
    (((acceptParsedAiRecipe c5WitnessParsed).usedIngredientCount =
        some ((acceptParsedAiRecipe c5WitnessParsed).extendedIngredients.getD []).length ∧
      (acceptParsedAiRecipe c5WitnessParsed).missedIngredientCount = some 0) ∨
     ((acceptParsedAiRecipe c5WitnessParsed).usedIngredientCount = none ∧
      (acceptParsedAiRecipe c5WitnessParsed).missedIngredientCount = none)) :=
  C5_amended true ("\x7b \"x\": 1 \x7d") (fun _ => .ok c5WitnessParsed) ["a"] ("u")
    (acceptParsedAiRecipe c5WitnessParsed) (by decide)

/-! ## C1: the post-scoring AI top-up guard -/

/-- C1 evaluation at the failing input: the batch's only recipe has a true
ingredient-fit percentage of 100 (well above the claimed 10% threshold) and
is not AI-generated, yet the top-up still generates and prepends the AI
alternative, because step 8 reads the `fit_score` key, which is never set
before `format_recipe_output` runs downstream, and so defaults to 0. -/
theorem C1_bug :
    ingredientFitPercentage c1TopRecipe = 100 ∧
    (post_scoring_ai_topup [c1TopRecipe] [] {} (some c1AiRecipe) []).length = 2 ∧
    ((post_scoring_ai_topup [c1TopRecipe] [] {} (some c1AiRecipe) []).head?.map
      (fun r => r.ai_generated.getD false)) = some true ∧
    (post_scoring_ai_topup [c1TopRecipe] [] {} (some c1AiRecipe) []).drop 1 =
      [c1TopRecipe] := by
  refine ⟨by norm_num [ingredientFitPercentage, c1TopRecipe], ?_, ?_, ?_⟩ <;>
    simp [post_scoring_ai_topup, c1TopRecipe, c1AiRecipe,
      convert_classified_to_used_missed, score_and_sort_recipes]

/-! ## C4: the effort sub-score -/

/-- For a bucket name known to sit at index `bi` of easy/moderate/hard, the
source's index-difference computation agrees with the claim's
bucket/adjacency description for every preference string. -/
theorem calculate_effort_eq_spec (t : String)
    (b : String) (hbl : b = "easy" ∨ b = "moderate" ∨ b = "hard") :
    calculate_effort_score b (some t) =
      (if b = t then 1
       else if (b, t) ∈ adjacentBuckets then (3/5 : ℚ) else 1/10) := by
  rcases hbl with rfl | rfl | rfl <;>
  · by_cases h1 : t = "easy"
    · subst h1
      simp +decide [calculate_effort_score, effort_levels, adjacentBuckets, List.findIdx?_cons]
    by_cases h2 : t = "moderate"
    · subst h2
      simp +decide [calculate_effort_score, effort_levels, adjacentBuckets, List.findIdx?_cons]
    by_cases h3 : t = "hard"
    · subst h3
      simp +decide [calculate_effort_score, effort_levels, adjacentBuckets, List.findIdx?_cons]
    simp [calculate_effort_score, effort_levels, adjacentBuckets, List.findIdx?_cons,
      eq_false (Ne.symm h1), eq_false (Ne.symm h2), eq_false (Ne.symm h3),
      eq_false h1, eq_false h2, eq_false h3]

/-- C4: the effort sub-score of score_recipe maps readyInMinutes to a bucket
(at most 30 easy, at most 60 moderate, otherwise hard, missing time
defaulting to moderate) and compares it to the user's effort tolerance:
exact match 1.0, adjacent bucket 0.6, non-adjacent 0.1, and the neutral 0.5
when the user expressed no preference (a `None` tolerance; an absent key
defaults to "moderate" before the comparison). -/
theorem C4_effort_subscore (r : Recipe) (p : UserPrefs) :
    effortComponent r p = effortSpecScore r.readyInMinutes (getEffortTolerance p) := by
  unfold effortComponent effortSpecScore
  cases hpref : getEffortTolerance p with
  | none => simp [calculate_effort_score]
  | some t =>
    have hbl : map_minutes_to_effort r.readyInMinutes = "easy" ∨
        map_minutes_to_effort r.readyInMinutes = "moderate" ∨
        map_minutes_to_effort r.readyInMinutes = "hard" := by
      unfold map_minutes_to_effort
      cases r.readyInMinutes with
      | none => simp
      | some m => dsimp only; split_ifs <;> simp
    simpa using calculate_effort_eq_spec t _ hbl

/-- C2 witness: the amended statement evaluated at a concrete recipe. -/
theorem C2_amended_witness :
    (convert_classified_to_used_missed
        { classified_ingredients := some
            [{ ingredient := some "a", in_inventory := some true },
             { ingredient := some "b", in_inventory := some false }],
          extendedIngredients := some [{ name := some "a" }, { name := some "b" }] }
        ["a"]).usedIngredientCount.getD 0 +
      (convert_classified_to_used_missed
        { classified_ingredients := some
            [{ ingredient := some "a", in_inventory := some true },
             { ingredient := some "b", in_inventory := some false }],
          extendedIngredients := some [{ name := some "a" }, { name := some "b" }] }
        ["a"]).missedIngredientCount.getD 0 =
      ([{ ingredient := some "a", in_inventory := some true },
        { ingredient := some "b", in_inventory := some false }] : List Classified).length :=
  C2_amended _ _ _ rfl (by decide)

/-! ## C9: inventory-score monotonicity -/

/-- C9: for a fixed recipe the inventory sub-score of score_recipe is
monotonically non-decreasing in the available-ingredient set: if A is
contained in B then the score against B is at least the score against A
(the effort and flavor inputs do not depend on the available set). -/
theorem C9_inventory_monotone (r : Recipe) (A B : List String)
    (h : ∀ x ∈ A, x ∈ B) :
    inventory_score r A ≤ inventory_score r B := by
  unfold inventory_score
  set names :=
    ((r.extendedIngredients.getD []).map (fun i => pyLower (i.name.getD ""))).dedup with hn
  by_cases he : names.isEmpty
  · simp [he]
  · simp only [he, Bool.false_eq_true, if_false]
    have hne : names ≠ [] := by
      intro h0; rw [h0] at he; exact he rfl
    have hpos : 0 < (names.length : ℚ) := by
      exact_mod_cast List.length_pos.mpr hne
    have hcount : names.countP (fun n => decide (n ∈ A)) ≤
        names.countP (fun n => decide (n ∈ B)) := by
      apply List.countP_mono_left
      intro x _ hx
      simp only [decide_eq_true_eq] at hx ⊢
      exact h x hx
    exact (div_le_div_iff_of_pos_right hpos).mpr (by exact_mod_cast hcount)

/-- C9 witness: the monotonicity applied at a concrete recipe and a concrete
pair of nested inventories. -/
theorem C9_inventory_monotone_witness :
    inventory_score
        { extendedIngredients := some [{ name := some "x" }, { name := some "y" }] }
        ["x"] ≤
      inventory_score
        { extendedIngredients := some [{ name := some "x" }, { name := some "y" }] }
        ["x", "y"] :=
  C9_inventory_monotone _ ["x"] ["x", "y"]
    (by intro a ha; simp only [List.mem_singleton] at ha; subst ha; simp)

/-! ## C10: score bounds -/

/-- The flavor accumulation keeps the running difference non-negative and
at most 100 per counted dimension. -/
theorem flavorAcc_fold_bounds (rt ut : TasteProfile) :
    ∀ (dims : List Dim) (acc : ℚ × ℕ),
      (∀ d ∈ dims, ∀ v, rt.get d = some v → 0 ≤ v ∧ v ≤ 100) →
      (∀ d ∈ dims, ∀ v, ut.get d = some v → 0 ≤ v ∧ v ≤ 100) →
      0 ≤ acc.1 → acc.1 ≤ (acc.2 : ℚ) * 100 →
      0 ≤ (dims.foldl
          (fun acc dim =>
            match rt.get dim, ut.get dim with
            | some rv, some pv => (acc.1 + |rv - pv|, acc.2 + 1)
            | _, _ => acc) acc).1 ∧
      (dims.foldl
          (fun acc dim =>
            match rt.get dim, ut.get dim with
            | some rv, some pv => (acc.1 + |rv - pv|, acc.2 + 1)
            | _, _ => acc) acc).1 ≤
        ((dims.foldl
          (fun acc dim =>
            match rt.get dim, ut.get dim with
            | some rv, some pv => (acc.1 + |rv - pv|, acc.2 + 1)
            | _, _ => acc) acc).2 : ℚ) * 100 := by
  intro dims
  induction dims with
  | nil => intro acc _ _ h0 h1; exact ⟨h0, h1⟩
  | cons d t ih =>
    intro acc hr hu h0 h1
    simp only [List.foldl_cons]
    cases hrd : rt.get d with
    | none =>
      exact ih acc (fun d' hd' => hr d' (List.mem_cons_of_mem _ hd'))
        (fun d' hd' => hu d' (List.mem_cons_of_mem _ hd')) h0 h1
    | some rv =>
      cases hud : ut.get d with
      | none =>
        exact ih acc (fun d' hd' => hr d' (List.mem_cons_of_mem _ hd'))
          (fun d' hd' => hu d' (List.mem_cons_of_mem _ hd')) h0 h1
      | some pv =>
        have hrb := hr d (List.mem_cons_self d t) rv hrd
        have hub := hu d (List.mem_cons_self d t) pv hud
        have habs : |rv - pv| ≤ 100 :=
          abs_le.mpr ⟨by linarith [hrb.1, hrb.2, hub.1, hub.2],
            by linarith [hrb.1, hrb.2, hub.1, hub.2]⟩
        refine ih (acc.1 + |rv - pv|, acc.2 + 1)
          (fun d' hd' => hr d' (List.mem_cons_of_mem _ hd'))
          (fun d' hd' => hu d' (List.mem_cons_of_mem _ hd'))
          (add_nonneg h0 (abs_nonneg _))
          ?_
        push_cast
        linarith [abs_nonneg (rv - pv)]

/-- Bounds for the full flavor accumulation over the six dimensions. -/
theorem flavorAcc_bounds (rt ut : TasteProfile)
    (hr : ∀ d ∈ TASTE_DIMENSIONS, ∀ v, rt.get d = some v → 0 ≤ v ∧ v ≤ 100)
    (hu : ∀ d ∈ TASTE_DIMENSIONS, ∀ v, ut.get d = some v → 0 ≤ v ∧ v ≤ 100) :
    0 ≤ (flavorAcc rt ut TASTE_DIMENSIONS).1 ∧
      (flavorAcc rt ut TASTE_DIMENSIONS).1 ≤
        ((flavorAcc rt ut TASTE_DIMENSIONS).2 : ℚ) * 100 := by
  unfold flavorAcc
  exact flavorAcc_fold_bounds rt ut TASTE_DIMENSIONS (0, 0) hr hu (by norm_num) (by norm_num)

/-- The flavor similarity is always within [0, 1] for in-range profiles. -/
theorem calculate_flavor_score_bounds (rto uto : Option TasteProfile)
    (h1 : optTasteInRange rto = true) (h2 : optTasteInRange uto = true) :
    0 ≤ calculate_flavor_score rto uto ∧ calculate_flavor_score rto uto ≤ 1 := by
  cases rto with
  | none => norm_num [calculate_flavor_score]
  | some rt =>
    cases uto with
    | none => norm_num [calculate_flavor_score]
    | some ut =>
      have hr : ∀ d ∈ TASTE_DIMENSIONS, ∀ v, rt.get d = some v → 0 ≤ v ∧ v ≤ 100 := by
        simp only [optTasteInRange, tasteInRange, List.all_eq_true] at h1
        intro d hd v hv
        have := h1 d hd
        rw [hv] at this
        simpa using this
      have hu : ∀ d ∈ TASTE_DIMENSIONS, ∀ v, ut.get d = some v → 0 ≤ v ∧ v ≤ 100 := by
        simp only [optTasteInRange, tasteInRange, List.all_eq_true] at h2
        intro d hd v hv
        have := h2 d hd
        rw [hv] at this
        simpa using this
      obtain ⟨hnn, hle⟩ := flavorAcc_bounds rt ut hr hu
      unfold calculate_flavor_score
      dsimp only
      by_cases hc : (flavorAcc rt ut TASTE_DIMENSIONS).2 = 0
      · rw [if_pos hc]; norm_num
      · rw [if_neg hc]
        have hcpos : (0 : ℚ) < ((flavorAcc rt ut TASTE_DIMENSIONS).2 : ℚ) * 100 := by
          have hp := Nat.pos_of_ne_zero hc
          positivity
        constructor
        · have hx := (div_le_one hcpos).mpr hle
          linarith
        · have hx := div_nonneg hnn hcpos.le
          linarith

/-- The effort sub-score only takes the four values 0.1, 0.5, 0.6, 1.0. -/
theorem effortComponent_cases (r : Recipe) (p : UserPrefs) :
    effortComponent r p = 1/10 ∨ effortComponent r p = 1/2 ∨
      effortComponent r p = 3/5 ∨ effortComponent r p = 1 := by
  unfold effortComponent calculate_effort_score
  cases getEffortTolerance p with
  | none => simp
  | some pref =>
    dsimp only
    split_ifs with h
    · tauto
    · cases hA : effort_levels.findIdx? (· = map_minutes_to_effort r.readyInMinutes) with
      | none => simp
      | some ri =>
        cases hB : effort_levels.findIdx? (· = pref) with
        | none => simp
        | some pi =>
          dsimp only
          split_ifs <;> tauto

/-- The inventory sub-score is a fraction in [0, 1]. -/
theorem inventory_score_bounds (r : Recipe) (avail : List String) :
    0 ≤ inventory_score r avail ∧ inventory_score r avail ≤ 1 := by
  unfold inventory_score
  set names :=
    ((r.extendedIngredients.getD []).map (fun i => pyLower (i.name.getD ""))).dedup with hn
  by_cases he : names.isEmpty
  · simp [he]
  · simp only [he, Bool.false_eq_true, if_false]
    have hne : names ≠ [] := by
      intro h0; rw [h0] at he; exact he rfl
    have hpos : 0 < (names.length : ℚ) := by
      exact_mod_cast List.length_pos.mpr hne
    constructor
    · exact div_nonneg (by positivity) hpos.le
    · rw [div_le_one hpos]
      exact_mod_cast List.countP_le_length _

/-- C10: when all present taste values of the recipe and of the user lie in
[0,100], score_recipe returns a combined score in [0,1]; the inventory
fraction lies in [0,1], the effort sub-score is one of 0.1, 0.5, 0.6, 1.0,
and the flavor similarity lies in [0,1]. -/
theorem C10_score_bounds (r : Recipe) (avail : List String) (p : UserPrefs)
    (h1 : optTasteInRange r.taste_profile = true)
    (h2 : optTasteInRange p.taste_profile = true) :
    (0 ≤ inventory_score r avail ∧ inventory_score r avail ≤ 1) ∧
    (effortComponent r p = 1/10 ∨ effortComponent r p = 1/2 ∨
      effortComponent r p = 3/5 ∨ effortComponent r p = 1) ∧
    (0 ≤ calculate_flavor_score r.taste_profile p.taste_profile ∧
      calculate_flavor_score r.taste_profile p.taste_profile ≤ 1) ∧
    (0 ≤ score_recipe r avail p ∧ score_recipe r avail p ≤ 1) := by
  have hi := inventory_score_bounds r avail
  have heff := effortComponent_cases r p
  have hf := calculate_flavor_score_bounds _ _ h1 h2
  refine ⟨hi, heff, hf, ?_⟩
  have he' : 0 ≤ effortComponent r p ∧ effortComponent r p ≤ 1 := by
    rcases heff with h | h | h | h <;> rw [h] <;> norm_num
  unfold score_recipe
  dsimp only
  constructor
  · linarith [hi.1, hi.2, he'.1, he'.2, hf.1, hf.2]
  · linarith [hi.1, hi.2, he'.1, he'.2, hf.1, hf.2]

/-- C10 witness: the bounds applied at a concrete recipe and preferences. -/
theorem C10_score_bounds_witness :
    (0 ≤ inventory_score { taste_profile := some neutralTasteProfile } ["a"] ∧
      inventory_score { taste_profile := some neutralTasteProfile } ["a"] ≤ 1) ∧
    (effortComponent { taste_profile := some neutralTasteProfile }
        { effort_tolerance := some (some "easy"), taste_profile := some neutralTasteProfile } = 1/10 ∨
      effortComponent { taste_profile := some neutralTasteProfile }
        { effort_tolerance := some (some "easy"), taste_profile := some neutralTasteProfile } = 1/2 ∨
      effortComponent { taste_profile := some neutralTasteProfile }
        { effort_tolerance := some (some "easy"), taste_profile := some neutralTasteProfile } = 3/5 ∨
      effortComponent { taste_profile := some neutralTasteProfile }
        { effort_tolerance := some (some "easy"), taste_profile := some neutralTasteProfile } = 1) ∧
    (0 ≤ calculate_flavor_score
        (Recipe.taste_profile { taste_profile := some neutralTasteProfile })
        (UserPrefs.taste_profile
          { effort_tolerance := some (some "easy"), taste_profile := some neutralTasteProfile }) ∧
      calculate_flavor_score
        (Recipe.taste_profile { taste_profile := some neutralTasteProfile })
        (UserPrefs.taste_profile
          { effort_tolerance := some (some "easy"), taste_profile := some neutralTasteProfile }) ≤ 1) ∧
    (0 ≤ score_recipe { taste_profile := some neutralTasteProfile } ["a"]
        { effort_tolerance := some (some "easy"), taste_profile := some neutralTasteProfile } ∧
      score_recipe { taste_profile := some neutralTasteProfile } ["a"]
        { effort_tolerance := some (some "easy"), taste_profile := some neutralTasteProfile } ≤ 1) :=
  C10_score_bounds _ _ _
    (by norm_num [optTasteInRange, tasteInRange, neutralTasteProfile, TASTE_DIMENSIONS,
      TasteProfile.get])
    (by norm_num [optTasteInRange, tasteInRange, neutralTasteProfile, TASTE_DIMENSIONS,
      TasteProfile.get])

/-! ## C6: the heuristic combination generator -/

/-- C6 counterexample: for a seven-item inventory consisting only of protein
keywords, no heuristic rule fires (no starch/vegetable companions exist and
the all-ingredients group is only added for at most six items), so the
generator returns no combinations at all and in particular "chicken" appears
in none of them. -/
theorem C6_counterexample :
    _create_culinary_ingredient_combinations
        ["chicken", "beef", "pork", "tuna", "fish", "tofu", "eggs"] = [] ∧
    "chicken" ∈ (["chicken", "beef", "pork", "tuna", "fish", "tofu", "eggs"] : List String) := by
  constructor
  · rfl
  · decide

/-- Duplicate removal keeps the first combination. -/
theorem dedupCombos_nil_cons (c : List String) (cs : List (List String)) :
    dedupCombos [] (c :: cs) = c :: dedupCombos [c] cs := by
  simp [dedupCombos]

/-- C6 (amended): the number of returned combinations is always at most
min(8, max(4, ingredient_count // 2)); the every-ingredient-covered
guarantee holds for inventories of at most six ingredients (where the full
ingredient list itself is kept as the first combination), but not in
general. -/
theorem C6_amended (ingredients : List String) (_h : ingredients ≠ []) :
    (_create_culinary_ingredient_combinations ingredients).length ≤
      min 8 (max 4 (ingredients.length / 2)) ∧
    (ingredients.length ≤ 6 →
      ∀ ing ∈ ingredients,
        ∃ combo ∈ _create_culinary_ingredient_combinations ingredients, ing ∈ combo) := by
  constructor
  · unfold _create_culinary_ingredient_combinations
    exact List.length_take_le _ _
  · intro h6 ing hing
    refine ⟨ingredients, ?_, hing⟩
    unfold _create_culinary_ingredient_combinations culinaryCombosRaw
    dsimp only
    rw [if_pos h6]
    simp only [List.cons_append, List.nil_append, List.append_assoc]
    rw [dedupCombos_nil_cons]
    obtain ⟨m, hm⟩ : ∃ m, min 8 (max 4 (ingredients.length / 2)) = m + 1 :=
      ⟨min 8 (max 4 (ingredients.length / 2)) - 1, by omega⟩
    rw [hm, List.take_succ_cons]
    exact List.mem_cons_self _ _

/-- C6 witness: the amended statement at a concrete one-item inventory. -/
theorem C6_amended_witness :
    (_create_culinary_ingredient_combinations ["tomato"]).length ≤
      min 8 (max 4 ((["tomato"] : List String).length / 2)) ∧
    ((["tomato"] : List String).length ≤ 6 →
      ∀ ing ∈ (["tomato"] : List String),
        ∃ combo ∈ _create_culinary_ingredient_combinations ["tomato"], ing ∈ combo) :=
  C6_amended ["tomato"] (by decide)

/-! ## C7: failed group fetches degrade to empty results -/

/-- After a loop step, an un-broken state holds fewer than `number`
results. -/
theorem fetchGroupStep_lt (number : ℕ) (st : FetchState) (g : List Recipe) :
    (fetchGroupStep number st g).broke = false →
    (fetchGroupStep number st g).all_results.length < number := by
  unfold fetchGroupStep
  by_cases hb : st.broke = true
  · rw [if_pos hb]; intro hbf; rw [hbf] at hb; cases hb
  · rw [if_neg hb]
    dsimp only
    split_ifs with hge
    · intro hbf; simp at hbf
    · intro _; omega

/-- A group that contributed no results leaves the loop state unchanged
(when the state cannot already have met the target without breaking). -/
theorem fetchGroupStep_nil (number : ℕ) (st : FetchState)
    (hlt : st.broke = false → st.all_results.length < number) :
    fetchGroupStep number st [] = st := by
  unfold fetchGroupStep
  by_cases hb : st.broke = true
  · rw [if_pos hb]
  · rw [if_neg hb]
    have hst : addUniqueResults st [] = st := rfl
    rw [hst, if_neg (by have := hlt (by simpa using hb); omega)]

/-- The per-step bound is preserved along the whole fold. -/
theorem fetchFold_inv (number : ℕ) :
    ∀ (gs : List (List Recipe)) (st : FetchState),
      (st.broke = false → st.all_results.length < number) →
      ((gs.foldl (fetchGroupStep number) st).broke = false →
        (gs.foldl (fetchGroupStep number) st).all_results.length < number) := by
  intro gs
  induction gs with
  | nil => intro st h; exact h
  | cons g t ih =>
    intro st _
    simp only [List.foldl_cons]
    exact ih _ (fetchGroupStep_lt number st g)

/-- C7: when the external search call raises or returns a non-success
status (after a cache miss), the group fetch returns the empty list through
the `try` handler rather than raising, and in the multi-group loop such an
empty group contributes nothing: the loop result is as if the group were
absent, with all remaining groups still processed. -/
theorem C7_failed_group (cacheOutcome : Except Unit (Option (List Recipe)))
    (http : HttpOutcome) (setOut : StoreSet) (number : ℕ)
    (pre post : List (List Recipe))
    (hcache : cacheOutcome = .ok none ∨ cacheOutcome = .ok (some []))
    (hfail : http = .raised ∨ ∃ st rs, http = .response st rs ∧ st ≠ 200)
    (hn : 1 ≤ number) :
    _fetch_recipes_for_ingredient_group cacheOutcome http setOut = .ok [] ∧
    fetch_recipes_from_spoonacular_loop (pre ++ [] :: post) number =
      fetch_recipes_from_spoonacular_loop (pre ++ post) number := by
  constructor
  · rcases hcache with rfl | rfl <;>
      rcases hfail with rfl | ⟨st, rs, rfl, hst⟩
    · simp [_fetch_recipes_for_ingredient_group]
    · simp [_fetch_recipes_for_ingredient_group, hst]
    · simp [_fetch_recipes_for_ingredient_group]
    · simp [_fetch_recipes_for_ingredient_group, hst]
  · unfold fetch_recipes_from_spoonacular_loop
    rw [List.foldl_append, List.foldl_append, List.foldl_cons]
    rw [fetchGroupStep_nil number _
      (fetchFold_inv number pre ⟨[], [], false⟩ (fun _ => hn))]

/-- C7 witness: the theorem at a concrete failing outcome and a concrete
loop instance. -/
theorem C7_failed_group_witness :
    _fetch_recipes_for_ingredient_group (.ok none) .raised .ok = .ok [] ∧
    fetch_recipes_from_spoonacular_loop
        ([[{ id := some (.num 1) }]] ++ [] :: [[{ id := some (.num 2) }]]) 1 =
      fetch_recipes_from_spoonacular_loop
        ([[{ id := some (.num 1) }]] ++ [[{ id := some (.num 2) }]]) 1 :=
  C7_failed_group (.ok none) .raised .ok 1 [[{ id := some (.num 1) }]]
    [[{ id := some (.num 2) }]] (Or.inl rfl) (Or.inl rfl) (by decide)
